import Mathlib

/-!
Verification development for the kids-media-player repository.

The Python sources are shallowly embedded as Lean functions:

* `config.py` constants become Lean constants (filesystem paths are kept as
  plain strings relative to the script directory, since `BASE_DIR` is a
  runtime value that only prefixes every path uniformly);
* `player.py`'s `handle_scan` / `_execute_command` / `find_video` become pure
  functions from an explicit router state (the module-level globals
  `_last_scan_text`, `_last_scan_time`, `_shutting_down`), the scanned text,
  the current monotonic time, and a media-directory listing, to the new state,
  an outcome classification and the list of mpv IPC commands issued;
* `mpv_control.py` is embedded at the level of one request/response exchange:
  the far end's behaviour on a single request is a `WireResult`, and each
  client helper computes its boolean result from it exactly as the Python
  does;
* `scanner.py`'s `_read_loop` becomes a fold over a list of input events.

Python floats (monotonic timestamps) are modelled as exact rationals; Python
`str.upper`/`str.lower`/`str.strip` act on the ASCII texts relevant here
exactly as `String.toUpper`/`String.toLower`/`String.trim` do.
-/

namespace KidsPlayer

/-! Section: config.py -/

/-- Source `VIDEO_EXTENSIONS` from config.py (lowercase). -/
def VIDEO_EXTENSIONS : List String :=
  [".mp4", ".mkv", ".avi", ".webm", ".mov", ".m4v", ".ts", ".flv"]

/-- Source `COMMAND_PREFIX` from config.py. -/
def COMMAND_PREFIX_STR : String := "CMD:"

/-- Source `COMMANDS` from config.py. -/
def COMMANDS : List String :=
  ["PAUSE", "STOP", "VOLUP", "VOLDOWN", "MUTE", "FWD", "RWD", "EXIT"]

/-- Source `SEEK_STEP` from config.py (seconds). -/
def SEEK_STEP : Int := 10

/-- Source `VOLUME_STEP` from config.py (percent). -/
def VOLUME_STEP : Int := 5

/-- Source `SCAN_DEBOUNCE_SECONDS` from config.py; times are modelled as rationals. -/
def SCAN_DEBOUNCE_SECONDS : ℚ := 2

/-- Source `MEDIA_DIR` from config.py, relative to the script directory. -/
def MEDIA_DIR_STR : String := "media"

/-- Source `SPLASH_IMAGE` from config.py (`ASSETS_DIR / "splash.png"`); this is the
path that `splash.generate()` returns. -/
def SPLASH_IMAGE_STR : String := "assets/splash.png"

/-! Section: Python primitives used by the sources

The string operations are implemented over character lists so that every
definition reduces by computation; on the ASCII texts this program handles
they agree with Python's `str` methods. -/

/-- Python's substring containment `needle in haystack`. -/
def pyIn (needle haystack : String) : Bool :=
  haystack.toList.tails.any (fun t => needle.toList.isPrefixOf t)

/-- ASCII uppercasing of one character, as `str.upper` does on ASCII. -/
def asciiUpperChar (c : Char) : Char :=
  if 'a' ≤ c ∧ c ≤ 'z' then Char.ofNat (c.toNat - 32) else c

/-- ASCII lowercasing of one character, as `str.lower` does on ASCII. -/
def asciiLowerChar (c : Char) : Char :=
  if 'A' ≤ c ∧ c ≤ 'Z' then Char.ofNat (c.toNat + 32) else c

/-- Python `str.upper` (on the ASCII texts in play). -/
def pyUpper (s : String) : String := ⟨s.toList.map asciiUpperChar⟩

/-- Python `str.lower` (on the ASCII texts in play). -/
def pyLower (s : String) : String := ⟨s.toList.map asciiLowerChar⟩

/-- Python `s.startswith(p)`. -/
def pyStartsWith (s p : String) : Bool := p.toList.isPrefixOf s.toList

/-- Python slicing `s[n:]` (by characters). -/
def pyDropChars (s : String) (n : Nat) : String := ⟨s.toList.drop n⟩

/-- The characters `str.strip` removes: ASCII whitespace. -/
def isPySpace (c : Char) : Bool :=
  c = ' ' || c = '\t' || c = '\n' || c = '\r' || c = '\x0b' || c = '\x0c'

/-- Python `str.strip()`: remove leading and trailing whitespace. -/
def pyStrip (s : String) : String :=
  ⟨((s.toList.dropWhile isPySpace).reverse.dropWhile isPySpace).reverse⟩

/-- Helper for `pyRfind`: scan left to right, remembering the last index at
which the character occurred. -/
def pyRfindAux (c : Char) : List Char → Int → Int → Int
  | [], _, best => best
  | x :: xs, i, best => pyRfindAux c xs (i + 1) (if x = c then i else best)

/-- Python's `str.rfind` for a single character: the greatest index at which
`c` occurs in `s`, or `-1` if it does not occur. -/
def pyRfind (c : Char) (s : String) : Int :=
  pyRfindAux c s.toList 0 (-1)

/-- Source `pathlib.PurePath.suffix`: the final extension of a file name, computed as
CPython does — `i = name.rfind('.')`, returning `name[i:]` when
`0 < i < len(name) - 1` and the empty string otherwise. -/
def pySuffix (name : String) : String :=
  let i := pyRfind '.' name
  if 0 < i ∧ i < (name.length : Int) - 1 then ⟨name.toList.drop i.toNat⟩ else ""

/-- Source `pathlib.PurePath.stem`: the file name minus its final extension, computed
as CPython does from the same `rfind` index as `pySuffix`. -/
def pyStem (name : String) : String :=
  let i := pyRfind '.' name
  if 0 < i ∧ i < (name.length : Int) - 1 then ⟨name.toList.take i.toNat⟩ else name

/-! Section: mpv_control.py: command payloads

Each helper of `mpv_control.py` sends `{"command": [...]}` for a fixed
command list; the lists are embedded directly. `str()` on a Python int is
`toString` on `Int`. -/

/-- Payload of `mpv_control.load_file`. -/
def loadFileCmd (path : String) : List String := ["loadfile", path]

/-- Payload of `mpv_control.stop`. -/
def stopCmd : List String := ["stop"]

/-- Payload of `mpv_control.pause_toggle`. -/
def pauseToggleCmd : List String := ["cycle", "pause"]

/-- Payload of `mpv_control.volume_up`. -/
def volumeUpCmd (step : Int) : List String := ["add", "volume", toString step]

/-- Payload of `mpv_control.volume_down`. -/
def volumeDownCmd (step : Int) : List String := ["add", "volume", toString (-step)]

/-- Payload of `mpv_control.mute_toggle`. -/
def muteToggleCmd : List String := ["cycle", "mute"]

/-- Payload of `mpv_control.seek`. -/
def seekCmd (seconds : Int) : List String := ["seek", toString seconds, "relative"]

/-! Section: player.py: media lookup and the scan router -/

/-- One entry of `MEDIA_DIR.iterdir()`: a file-system name and whether the
entry is a regular file. -/
structure DirEntry where
  name : String
  isFile : Bool
deriving DecidableEq

/-- The per-entry test of `find_video`:
`f.is_file() and f.suffix.lower() in VIDEO_EXTENSIONS and f.stem.lower() == stem_lower`. -/
def matchesStem (stemLower : String) (f : DirEntry) : Bool :=
  f.isFile && VIDEO_EXTENSIONS.contains (pyLower (pySuffix f.name))
    && (pyLower (pyStem f.name) == stemLower)

/-- Source `find_video` from player.py: the first directory entry that is a file with
a supported extension whose stem matches the given stem case-insensitively. -/
def find_video (dir : List DirEntry) (stem : String) : Option DirEntry :=
  dir.find? (matchesStem (pyLower stem))

/-- Source `str(video)` for a found entry: the full path under the media directory. -/
def mediaPath (f : DirEntry) : String := MEDIA_DIR_STR ++ "/" ++ f.name

/-- The module-level mutable state of player.py that `handle_scan` reads and
writes: `_last_scan_text`, `_last_scan_time`, `_shutting_down`. -/
structure RouterState where
  lastScanText : String
  lastScanTime : ℚ
  shuttingDown : Bool
deriving DecidableEq

/-- The initial values of the player.py globals. -/
def initialRouterState : RouterState :=
  { lastScanText := "", lastScanTime := 0, shuttingDown := false }

/-- Which branch of `handle_scan` a scan ends in. -/
inductive ScanOutcome where
  | debounced
  | rejected
  | command (cmd : String)
  | unknownCommand (cmd : String)
  | played (f : DirEntry)
  | noVideo
deriving DecidableEq

/-- Source `_execute_command` from player.py: the mpv IPC calls made for a recognized
command, and the state update (`EXIT` sets `_shutting_down`). `STOP` calls
`mpv_control.stop()` and then `show_splash()`, which loads the regenerated
splash image. -/
def executeCommand (st : RouterState) (cmd : String) : RouterState × List (List String) :=
  if cmd = "PAUSE" then (st, [pauseToggleCmd])
  else if cmd = "STOP" then (st, [stopCmd, loadFileCmd SPLASH_IMAGE_STR])
  else if cmd = "VOLUP" then (st, [volumeUpCmd VOLUME_STEP])
  else if cmd = "VOLDOWN" then (st, [volumeDownCmd VOLUME_STEP])
  else if cmd = "MUTE" then (st, [muteToggleCmd])
  else if cmd = "FWD" then (st, [seekCmd SEEK_STEP])
  else if cmd = "RWD" then (st, [seekCmd (-SEEK_STEP)])
  else if cmd = "EXIT" then ({ st with shuttingDown := true }, [])
  else (st, [])

/-- The security test of `handle_scan`: `"/" in text or ".." in text`. -/
def hasTraversal (text : String) : Bool :=
  pyIn "/" text || pyIn ".." text

/-- Source `cmd = text_upper[len(COMMAND_PREFIX):]` of `handle_scan`: the
uppercased text with the command prefix stripped. -/
def strippedCommand (text : String) : String :=
  pyDropChars (pyUpper text) COMMAND_PREFIX_STR.length

/-- The part of `handle_scan` after the debounce block, acting on the already
updated state: path-traversal rejection, uppercasing, command-prefix
handling, media lookup. -/
def routeAccepted (dir : List DirEntry) (st1 : RouterState) (text : String) :
    RouterState × ScanOutcome × List (List String) :=
  if hasTraversal text then
    (st1, .rejected, [])
  else
    if pyStartsWith (pyUpper text) COMMAND_PREFIX_STR then
      if strippedCommand text ∈ COMMANDS then
        let r := executeCommand st1 (strippedCommand text)
        (r.1, .command (strippedCommand text), r.2)
      else
        (st1, .unknownCommand (strippedCommand text), [])
    else
      match find_video dir text with
      | some v => (st1, .played v, [loadFileCmd (mediaPath v)])
      | none => (st1, .noVideo, [])

/-- Source `handle_scan` from player.py, as a pure function of the directory listing,
the router state, the scanned text and the current monotonic time. Returns
the new state, the outcome classification and the mpv IPC calls issued, in
the order of the source: debounce, state update, then `routeAccepted`. -/
def handle_scan (dir : List DirEntry) (st : RouterState) (text : String) (now : ℚ) :
    RouterState × ScanOutcome × List (List String) :=
  if text = st.lastScanText ∧ now - st.lastScanTime < SCAN_DEBOUNCE_SECONDS then
    (st, .debounced, [])
  else
    routeAccepted dir { st with lastScanText := text, lastScanTime := now } text

/-! Section: mpv_control.py: one request/response exchange

`_send` opens a fresh connection, writes one newline-terminated JSON command,
then reads chunks until the received data contains a newline or the far end
closes, and parses the first received line with `json.loads`; every exception
raised inside the `try` block is caught and turned into `None`. The
behaviour of the far end on one request is abstracted as a `WireResult`; per
the control protocol the decoded response is a JSON object, embedded as an
association list of fields. -/

/-- A JSON value as decoded by `json.loads` (the fragment the protocol
uses). -/
inductive JsonVal where
  | str (s : String)
  | bool (b : Bool)
  | num (n : Int)
  | null
deriving DecidableEq

/-- A decoded JSON object: fields in textual order (later duplicates
overwrite earlier ones on lookup, as in a Python dict built by the parser). -/
abbrev JsonObj := List (String × JsonVal)

/-- What the far end does on one request. `response obj nl` means bytes
arrived whose first line decodes to the object `obj`; `nl` records whether
that line was newline-terminated or whether the far end closed the
connection after it instead (the read loop in `_send` exits on either). -/
inductive WireResult where
  | connectRefused
  | socketMissing
  | timedOut
  | closedNoData
  | ioError
  | badPayload
  | response (obj : JsonObj) (newlineTerminated : Bool)
deriving DecidableEq

/-- Source `_send` from mpv_control.py: the decoded response object, or `None`.
`connectRefused` and `socketMissing` hit the first `except` clause,
`timedOut`, `ioError` and `badPayload` (a `json.loads` failure) hit the
broad second one, and `closedNoData` leaves `data` empty so the function
falls through; all of these return `None`. -/
def send : WireResult → Option JsonObj
  | .response obj _ => some obj
  | _ => none

/-- Python `dict.get`: the value of the last binding of the key, if any. -/
def pyDictGet (d : JsonObj) (k : String) : Option JsonVal :=
  d.reverse.lookup k

/-- Python truthiness of a dict: nonempty. -/
def pyTruthy (obj : JsonObj) : Bool := !obj.isEmpty

/-- The success computation shared by `load_file`, `stop`, `pause_toggle`,
`volume_up`, `volume_down`, `mute_toggle` and `seek`:
`resp is not None and resp.get("error") == "success"`. -/
def clientSuccess (w : WireResult) : Bool :=
  match send w with
  | some obj => pyDictGet obj "error" == some (JsonVal.str "success")
  | none => false

/-- JSON `null` decodes to Python `None`, which `get_property` returns
indistinguishably from a missing field. -/
def pyFlattenNull : Option JsonVal → Option JsonVal
  | some .null => none
  | v => v

/-- Source `get_property` from mpv_control.py: `resp.get("data")` when the response
is truthy with `error == "success"`, else `None`. -/
def get_property (w : WireResult) : Option JsonVal :=
  match send w with
  | some obj =>
      if pyTruthy obj && (pyDictGet obj "error" == some (JsonVal.str "success")) then
        pyFlattenNull (pyDictGet obj "data")
      else none
  | none => none

/-- Source `is_idle` from mpv_control.py: `get_property("idle-active") is True`. -/
def is_idle (w : WireResult) : Bool :=
  get_property w == some (JsonVal.bool true)

/-! Section: scanner.py: the keycode decoder -/

/-- One evdev input event as `_read_loop` sees it: `event.type`, the
categorized `scancode`, and the `keystate` (0 = up, 1 = down, 2 = hold). -/
structure InputEvent where
  etype : Nat
  code : Nat
  value : Nat
deriving DecidableEq

/-- Source `ecodes.EV_KEY`. -/
def EV_KEY : Nat := 1

/-- Source `ecodes.KEY_ENTER`. -/
def KEY_ENTER : Nat := 28

/-- Source `ecodes.KEY_LEFTSHIFT`. -/
def KEY_LEFTSHIFT : Nat := 42

/-- Source `ecodes.KEY_RIGHTSHIFT`. -/
def KEY_RIGHTSHIFT : Nat := 54

/-- The `KEYMAP` table of scanner.py: Linux keycode to (normal, shifted)
character. Keycodes follow `linux/input-event-codes.h`. -/
def KEYMAP : Nat → Option (Char × Char)
  | 2 => some ('1', '!')
  | 3 => some ('2', '@')
  | 4 => some ('3', '#')
  | 5 => some ('4', '$')
  | 6 => some ('5', '%')
  | 7 => some ('6', '^')
  | 8 => some ('7', '&')
  | 9 => some ('8', '*')
  | 10 => some ('9', '(')
  | 11 => some ('0', ')')
  | 12 => some ('-', '_')
  | 13 => some ('=', '+')
  | 16 => some ('q', 'Q')
  | 17 => some ('w', 'W')
  | 18 => some ('e', 'E')
  | 19 => some ('r', 'R')
  | 20 => some ('t', 'T')
  | 21 => some ('y', 'Y')
  | 22 => some ('u', 'U')
  | 23 => some ('i', 'I')
  | 24 => some ('o', 'O')
  | 25 => some ('p', 'P')
  | 26 => some ('[', '\x7b')
  | 27 => some (']', '\x7d')
  | 30 => some ('a', 'A')
  | 31 => some ('s', 'S')
  | 32 => some ('d', 'D')
  | 33 => some ('f', 'F')
  | 34 => some ('g', 'G')
  | 35 => some ('h', 'H')
  | 36 => some ('j', 'J')
  | 37 => some ('k', 'K')
  | 38 => some ('l', 'L')
  | 39 => some (';', ':')
  | 40 => some ('\'', '"')
  | 41 => some ('`', '~')
  | 43 => some ('\\', '|')
  | 44 => some ('z', 'Z')
  | 45 => some ('x', 'X')
  | 46 => some ('c', 'C')
  | 47 => some ('v', 'V')
  | 48 => some ('b', 'B')
  | 49 => some ('n', 'N')
  | 50 => some ('m', 'M')
  | 51 => some (',', '<')
  | 52 => some ('.', '>')
  | 53 => some ('/', '?')
  | 57 => some (' ', ' ')
  | _ => none

/-- The result of running `_read_loop` over a finite event list: the lines
passed to the callback, in order, and the final buffer and shift state. -/
structure DecodeResult where
  outputs : List String
  buffer : String
  shift : Bool
deriving DecidableEq

/-- Source `_read_loop` from scanner.py over a finite list of events, starting from
a given buffer and shift state. Non-key events are skipped; shift keys set
the shift state from the keystate (down or hold) and contribute nothing;
non-down events of other keys are skipped; Enter key-down strips the buffer,
emits it when non-empty and resets the buffer; other key-downs append the
mapped character (shifted variant when shift is set), unmapped keycodes are
ignored. -/
def readLoop : List InputEvent → String → Bool → DecodeResult
  | [], buffer, shift => ⟨[], buffer, shift⟩
  | e :: rest, buffer, shift =>
    if e.etype ≠ EV_KEY then readLoop rest buffer shift
    else if e.code = KEY_LEFTSHIFT ∨ e.code = KEY_RIGHTSHIFT then
      readLoop rest buffer (e.value == 1 || e.value == 2)
    else if e.value ≠ 1 then readLoop rest buffer shift
    else if e.code = KEY_ENTER then
      let text := pyStrip buffer
      let r := readLoop rest "" shift
      if text ≠ "" then ⟨text :: r.outputs, r.buffer, r.shift⟩ else r
    else
      match KEYMAP e.code with
      | some m => readLoop rest (buffer.push (if shift then m.2 else m.1)) shift
      | none => readLoop rest buffer shift

/-- An Enter key-down event, terminating a scan line. -/
def enterDown : InputEvent := ⟨EV_KEY, KEY_ENTER, 1⟩

/-- Whether an event is an Enter key-down (the line terminator). -/
def isEnterDown (e : InputEvent) : Prop :=
  e.etype = EV_KEY ∧ e.code = KEY_ENTER ∧ e.value = 1

instance (e : InputEvent) : Decidable (isEnterDown e) := by
  unfold isEnterDown; infer_instance

/-- The concatenation of the characters mapped from each non-shift key-down
event of a sequence, taking the shifted variant exactly when a shift key was
down per the tracked shift state at that event, ignoring keys absent from
the layout table and all non-down events of non-shift keys. -/
def mappedLine : List InputEvent → Bool → String
  | [], _ => ""
  | e :: rest, shift =>
    if e.etype ≠ EV_KEY then mappedLine rest shift
    else if e.code = KEY_LEFTSHIFT ∨ e.code = KEY_RIGHTSHIFT then
      mappedLine rest (e.value == 1 || e.value == 2)
    else if e.value ≠ 1 then mappedLine rest shift
    else
      match KEYMAP e.code with
      | some m => String.singleton (if shift then m.2 else m.1) ++ mappedLine rest shift
      | none => mappedLine rest shift

/-- The shift state tracked across a sequence of events. -/
def trackShift : List InputEvent → Bool → Bool
  | [], shift => shift
  | e :: rest, shift =>
    if e.etype = EV_KEY ∧ (e.code = KEY_LEFTSHIFT ∨ e.code = KEY_RIGHTSHIFT) then
      trackShift rest (e.value == 1 || e.value == 2)
    else trackShift rest shift

/-! Section: player.py: watcher steps on the shutdown flag and the idle watcher -/

/-- The local state of `idle_watcher`: `splash_showing` and `last_minute`. -/
structure IdleState where
  splashShowing : Bool
  lastMinute : Int
deriving DecidableEq

/-- The initial local state of `idle_watcher` (`splash_showing = False`,
`last_minute = -1`). -/
def initialIdleState : IdleState := ⟨false, -1⟩

/-- One poll iteration of `idle_watcher` from player.py, given whether mpv
reports idle and the current wall-clock minute; returns the new local state
and whether `show_splash()` was called this iteration. -/
def idleWatcherStep (st : IdleState) (idleNow : Bool) (currentMinute : Nat) :
    IdleState × Bool :=
  if idleNow then
    if st.splashShowing = false ∨ (currentMinute : Int) ≠ st.lastMinute then
      (⟨true, (currentMinute : Int)⟩, true)
    else (st, false)
  else (⟨false, -1⟩, false)

/-- One iteration of `_mpv_watcher`: when the flag is already set the loop
does not run; otherwise the flag is set exactly when `mpv_proc.poll()`
reports the process has exited. -/
def mpvWatcherStep (exited : Bool) (flag : Bool) : Bool :=
  if flag then flag else if exited then true else flag

/-- Source `_signal_shutdown` from player.py: unconditionally sets the flag. -/
def signalShutdownStep (flag : Bool) : Bool :=
  if flag then true else true

/-- Source `EXIT_KEYS` of `_keyboard_exit_watcher`: `KEY_Q` and `KEY_ESC`. -/
def EXIT_KEYS : List Nat := [16, 1]

/-- One event step of `_watch_one` in `_monitor_keyboards`: when the flag is
set the loop returns; otherwise a key-down of an exit key sets the flag. -/
def exitKeyStep (e : InputEvent) (flag : Bool) : Bool :=
  if flag then flag
  else if e.etype = EV_KEY ∧ e.value = 1 ∧ e.code ∈ EXIT_KEYS then true
  else flag

/-- One iteration of `idle_watcher` as far as the shutdown flag is concerned:
it only reads the flag, never writes it. -/
def idleWatcherFlagStep (flag : Bool) : Bool := flag

/-- One iteration of `shutdown_watcher`: it only reads the flag. -/
def shutdownWatcherFlagStep (flag : Bool) : Bool := flag

/-! Section: branch lemmas for the scan router -/

theorem handle_scan_of_hit (dir : List DirEntry) (st : RouterState) (text : String) (now : ℚ)
    (h : text = st.lastScanText ∧ now - st.lastScanTime < SCAN_DEBOUNCE_SECONDS) :
    handle_scan dir st text now = (st, .debounced, []) := by
  unfold handle_scan
  rw [if_pos h]

theorem handle_scan_of_acc (dir : List DirEntry) (st : RouterState) (text : String) (now : ℚ)
    (h : ¬(text = st.lastScanText ∧ now - st.lastScanTime < SCAN_DEBOUNCE_SECONDS)) :
    handle_scan dir st text now =
      routeAccepted dir { st with lastScanText := text, lastScanTime := now } text := by
  unfold handle_scan
  rw [if_neg h]

theorem routeAccepted_rejected (dir : List DirEntry) (st1 : RouterState) (text : String)
    (h : hasTraversal text = true) :
    routeAccepted dir st1 text = (st1, .rejected, []) := by
  unfold routeAccepted
  rw [if_pos h]

theorem routeAccepted_command (dir : List DirEntry) (st1 : RouterState) (text : String)
    (h1 : hasTraversal text = false)
    (h2 : pyStartsWith (pyUpper text) COMMAND_PREFIX_STR = true)
    (h3 : strippedCommand text ∈ COMMANDS) :
    routeAccepted dir st1 text =
      ((executeCommand st1 (strippedCommand text)).1,
        .command (strippedCommand text),
        (executeCommand st1 (strippedCommand text)).2) := by
  unfold routeAccepted
  rw [if_neg (by simp [h1]), if_pos h2, if_pos h3]

theorem routeAccepted_unknown (dir : List DirEntry) (st1 : RouterState) (text : String)
    (h1 : hasTraversal text = false)
    (h2 : pyStartsWith (pyUpper text) COMMAND_PREFIX_STR = true)
    (h3 : strippedCommand text ∉ COMMANDS) :
    routeAccepted dir st1 text =
      (st1, .unknownCommand (strippedCommand text), []) := by
  unfold routeAccepted
  rw [if_neg (by simp [h1]), if_pos h2, if_neg h3]

theorem routeAccepted_found (dir : List DirEntry) (st1 : RouterState) (text : String)
    (v : DirEntry)
    (h1 : hasTraversal text = false)
    (h2 : pyStartsWith (pyUpper text) COMMAND_PREFIX_STR = false)
    (hv : find_video dir text = some v) :
    routeAccepted dir st1 text = (st1, .played v, [loadFileCmd (mediaPath v)]) := by
  unfold routeAccepted
  rw [if_neg (by simp [h1]), if_neg (by simp [h2]), hv]

theorem routeAccepted_noVideo (dir : List DirEntry) (st1 : RouterState) (text : String)
    (h1 : hasTraversal text = false)
    (h2 : pyStartsWith (pyUpper text) COMMAND_PREFIX_STR = false)
    (hv : find_video dir text = none) :
    routeAccepted dir st1 text = (st1, .noVideo, []) := by
  unfold routeAccepted
  rw [if_neg (by simp [h1]), if_neg (by simp [h2]), hv]

theorem executeCommand_state (st : RouterState) (cmd : String) :
    (executeCommand st cmd).1 = st ∨
      (executeCommand st cmd).1 = { st with shuttingDown := true } := by
  unfold executeCommand
  repeat' split
  all_goals simp

/-- Exhaustive case analysis on `routeAccepted`: each invocation lands in
exactly one of the five post-debounce branches. -/
theorem routeAccepted_cases (dir : List DirEntry) (st1 : RouterState) (text : String) :
    (hasTraversal text = true ∧ routeAccepted dir st1 text = (st1, .rejected, [])) ∨
    (hasTraversal text = false ∧ pyStartsWith (pyUpper text) COMMAND_PREFIX_STR = true ∧
      strippedCommand text ∈ COMMANDS ∧
      routeAccepted dir st1 text =
        ((executeCommand st1 (strippedCommand text)).1,
          .command (strippedCommand text),
          (executeCommand st1 (strippedCommand text)).2)) ∨
    (hasTraversal text = false ∧ pyStartsWith (pyUpper text) COMMAND_PREFIX_STR = true ∧
      strippedCommand text ∉ COMMANDS ∧
      routeAccepted dir st1 text =
        (st1, .unknownCommand (strippedCommand text), [])) ∨
    (hasTraversal text = false ∧ pyStartsWith (pyUpper text) COMMAND_PREFIX_STR = false ∧
      ∃ v, find_video dir text = some v ∧
        routeAccepted dir st1 text = (st1, .played v, [loadFileCmd (mediaPath v)])) ∨
    (hasTraversal text = false ∧ pyStartsWith (pyUpper text) COMMAND_PREFIX_STR = false ∧
      find_video dir text = none ∧ routeAccepted dir st1 text = (st1, .noVideo, [])) := by
  by_cases h1 : hasTraversal text = true
  · exact Or.inl ⟨h1, routeAccepted_rejected dir st1 text h1⟩
  · have h1f : hasTraversal text = false := by simpa using h1
    by_cases h2 : pyStartsWith (pyUpper text) COMMAND_PREFIX_STR = true
    · by_cases h3 : strippedCommand text ∈ COMMANDS
      · exact Or.inr (Or.inl ⟨h1f, h2, h3, routeAccepted_command dir st1 text h1f h2 h3⟩)
      · exact Or.inr (Or.inr (Or.inl
          ⟨h1f, h2, h3, routeAccepted_unknown dir st1 text h1f h2 h3⟩))
    · have h2f : pyStartsWith (pyUpper text) COMMAND_PREFIX_STR = false := by simpa using h2
      cases hv : find_video dir text with
      | some v => exact Or.inr (Or.inr (Or.inr (Or.inl
          ⟨h1f, h2f, v, rfl, routeAccepted_found dir st1 text v h1f h2f hv⟩)))
      | none => exact Or.inr (Or.inr (Or.inr (Or.inr
          ⟨h1f, h2f, rfl, routeAccepted_noVideo dir st1 text h1f h2f hv⟩)))

theorem routeAccepted_state (dir : List DirEntry) (st1 : RouterState) (text : String) :
    (routeAccepted dir st1 text).1 = st1 ∨
      (routeAccepted dir st1 text).1 = { st1 with shuttingDown := true } := by
  rcases routeAccepted_cases dir st1 text with
    ⟨_, h⟩ | ⟨_, _, _, h⟩ | ⟨_, _, _, h⟩ | ⟨_, _, v, _, h⟩ | ⟨_, _, _, h⟩
  · rw [h]; exact Or.inl rfl
  · rw [h]; exact executeCommand_state st1 _
  · rw [h]; exact Or.inl rfl
  · rw [h]; exact Or.inl rfl
  · rw [h]; exact Or.inl rfl

theorem routeAccepted_ne_debounced (dir : List DirEntry) (st1 : RouterState) (text : String) :
    (routeAccepted dir st1 text).2.1 ≠ ScanOutcome.debounced := by
  rcases routeAccepted_cases dir st1 text with
    ⟨_, h⟩ | ⟨_, _, _, h⟩ | ⟨_, _, _, h⟩ | ⟨_, _, v, _, h⟩ | ⟨_, _, _, h⟩ <;>
    rw [h] <;> simp

theorem handle_scan_debounced_iff (dir : List DirEntry) (st : RouterState) (text : String)
    (now : ℚ) :
    (handle_scan dir st text now).2.1 = ScanOutcome.debounced ↔
      (text = st.lastScanText ∧ now - st.lastScanTime < SCAN_DEBOUNCE_SECONDS) := by
  by_cases h : text = st.lastScanText ∧ now - st.lastScanTime < SCAN_DEBOUNCE_SECONDS
  · rw [handle_scan_of_hit dir st text now h]
    simpa using h
  · rw [handle_scan_of_acc dir st text now h]
    simp only [h, iff_false]
    exact routeAccepted_ne_debounced dir _ text

theorem executeCommand_shuttingDown_mono (st : RouterState) (cmd : String)
    (h : st.shuttingDown = true) :
    (executeCommand st cmd).1.shuttingDown = true := by
  unfold executeCommand
  repeat' split
  all_goals simp [h]

theorem executeCommand_lastScanText (st : RouterState) (cmd : String) :
    (executeCommand st cmd).1.lastScanText = st.lastScanText := by
  unfold executeCommand
  repeat' split
  all_goals simp

theorem executeCommand_lastScanTime (st : RouterState) (cmd : String) :
    (executeCommand st cmd).1.lastScanTime = st.lastScanTime := by
  unfold executeCommand
  repeat' split
  all_goals simp

theorem routeAccepted_lastScanText (dir : List DirEntry) (st1 : RouterState) (text : String) :
    (routeAccepted dir st1 text).1.lastScanText = st1.lastScanText := by
  rcases routeAccepted_state dir st1 text with h | h <;> rw [h]

theorem routeAccepted_lastScanTime (dir : List DirEntry) (st1 : RouterState) (text : String) :
    (routeAccepted dir st1 text).1.lastScanTime = st1.lastScanTime := by
  rcases routeAccepted_state dir st1 text with h | h <;> rw [h]

theorem routeAccepted_shuttingDown_mono (dir : List DirEntry) (st1 : RouterState)
    (text : String) (h : st1.shuttingDown = true) :
    (routeAccepted dir st1 text).1.shuttingDown = true := by
  rcases routeAccepted_state dir st1 text with h2 | h2 <;> rw [h2]
  exact h

/-! Section: lemmas on the protocol client -/

theorem pyTruthy_of_pyDictGet (obj : JsonObj) (k : String) (v : JsonVal)
    (h : pyDictGet obj k = some v) : pyTruthy obj = true := by
  cases obj with
  | nil => simp [pyDictGet] at h
  | cons a l => simp [pyTruthy]

theorem pyFlattenNull_eq_some_bool (o : Option JsonVal) (b : Bool) :
    pyFlattenNull o = some (JsonVal.bool b) ↔ o = some (JsonVal.bool b) := by
  cases o with
  | none => simp [pyFlattenNull]
  | some v => cases v <;> simp [pyFlattenNull]

/-! Section: the claims -/

/-- What claim C5 calls a successful exchange: a newline-terminated JSON
response whose error field equals the literal string "success". -/
def nlSuccessResponse (w : WireResult) : Prop :=
  ∃ obj, w = WireResult.response obj true ∧
    pyDictGet obj "error" = some (JsonVal.str "success")

/-- C5 counterexample: when the far end sends the success object and then
closes the connection without a terminating newline, `_send` still parses the
received data and the operation reports success, although no
newline-terminated response was received — the claimed "if and only if" fails
in the right-to-left direction at this input. -/
theorem c5_counterexample :
    clientSuccess (WireResult.response [("error", JsonVal.str "success")] false) = true ∧
    ¬ nlSuccessResponse (WireResult.response [("error", JsonVal.str "success")] false) := by
  constructor
  · decide
  · rintro ⟨obj, heq, -⟩
    injection heq with h1 h2
    exact absurd h2 (by decide)

/-- C5 amended: a Control Protocol Client operation returns success exactly
when a response was received — newline-terminated or ended by the far end
closing the connection — whose error field equals the literal string
"success"; connection refusal, a missing socket path, timeout, the far end
closing without data, undecodable data and any other I/O exception all give a
failure result (the embedding is a total function: no exception escapes). -/
theorem c5_client_success_iff (w : WireResult) :
    (clientSuccess w = true ↔
      ∃ obj nl, w = WireResult.response obj nl ∧
        pyDictGet obj "error" = some (JsonVal.str "success")) ∧
    clientSuccess WireResult.connectRefused = false ∧
    clientSuccess WireResult.socketMissing = false ∧
    clientSuccess WireResult.timedOut = false ∧
    clientSuccess WireResult.closedNoData = false ∧
    clientSuccess WireResult.ioError = false ∧
    clientSuccess WireResult.badPayload = false := by
  refine ⟨?_, rfl, rfl, rfl, rfl, rfl, rfl⟩
  cases w with
  | response obj nl =>
      simp only [clientSuccess, send, beq_iff_eq]
      constructor
      · intro h
        exact ⟨obj, nl, rfl, h⟩
      · rintro ⟨obj2, nl2, heq, he⟩
        injection heq with h1 h2
        rw [h1]
        exact he
  | connectRefused => simp [clientSuccess, send]
  | socketMissing => simp [clientSuccess, send]
  | timedOut => simp [clientSuccess, send]
  | closedNoData => simp [clientSuccess, send]
  | ioError => simp [clientSuccess, send]
  | badPayload => simp [clientSuccess, send]

/-- C9: `is_idle` returns true exactly when the property read got a response
whose error field equals "success" and whose data field is the JSON boolean
true; every failure mode of the exchange, a non-success error field, a
missing data field, a JSON null and any non-true data value all make it
return false. -/
theorem c9_idle_fails_closed (w : WireResult) :
    is_idle w = true ↔
      ∃ obj nl, w = WireResult.response obj nl ∧
        pyDictGet obj "error" = some (JsonVal.str "success") ∧
        pyDictGet obj "data" = some (JsonVal.bool true) := by
  cases w with
  | response obj nl =>
      constructor
      · intro h
        simp only [is_idle, get_property, send, beq_iff_eq] at h
        by_cases he : pyDictGet obj "error" = some (JsonVal.str "success")
        · refine ⟨obj, nl, rfl, he, ?_⟩
          rw [pyTruthy_of_pyDictGet obj "error" _ he] at h
          simp only [he, beq_self_eq_true, Bool.and_self, if_true] at h
          exact (pyFlattenNull_eq_some_bool _ true).mp h
        · exfalso
          have hb : (pyDictGet obj "error" == some (JsonVal.str "success")) = false := by
            simpa using he
          rw [hb, Bool.and_false, if_neg (by simp)] at h
          exact Option.noConfusion h
      · rintro ⟨obj2, nl2, heq, he, hd⟩
        injection heq with h1 h2
        subst h1
        simp only [is_idle, get_property, send, beq_iff_eq,
          pyTruthy_of_pyDictGet obj "error" _ he, he, hd]
        simp [pyFlattenNull]
  | connectRefused => simp [is_idle, get_property, send]
  | socketMissing => simp [is_idle, get_property, send]
  | timedOut => simp [is_idle, get_property, send]
  | closedNoData => simp [is_idle, get_property, send]
  | ioError => simp [is_idle, get_property, send]
  | badPayload => simp [is_idle, get_property, send]

/-- C7: the shutdown flag is monotonic — the scan router and each watcher
step either leave it unchanged or set it to true, none ever resets it — and
each of the four triggers (an EXIT command through the router, the media
player process exiting, an exit-key press, an OS termination signal) can set
it from false. -/
theorem c7_shutdown_flag_monotonic :
    (∀ (dir : List DirEntry) (st : RouterState) (text : String) (now : ℚ),
        st.shuttingDown = true → (handle_scan dir st text now).1.shuttingDown = true) ∧
    (∀ exited flag, flag = true → mpvWatcherStep exited flag = true) ∧
    (∀ e flag, flag = true → exitKeyStep e flag = true) ∧
    (∀ flag, flag = true → signalShutdownStep flag = true) ∧
    (∀ flag, idleWatcherFlagStep flag = flag) ∧
    (∀ flag, shutdownWatcherFlagStep flag = flag) ∧
    (handle_scan [] initialRouterState "CMD:EXIT" 1).1.shuttingDown = true ∧
    mpvWatcherStep true false = true ∧
    exitKeyStep ⟨EV_KEY, 16, 1⟩ false = true ∧
    signalShutdownStep false = true := by
  refine ⟨?_, ?_, ?_, ?_, fun _ => rfl, fun _ => rfl, ?_, rfl, ?_, rfl⟩
  · intro dir st text now h
    by_cases hd : text = st.lastScanText ∧ now - st.lastScanTime < SCAN_DEBOUNCE_SECONDS
    · rw [handle_scan_of_hit dir st text now hd]
      exact h
    · rw [handle_scan_of_acc dir st text now hd]
      exact routeAccepted_shuttingDown_mono dir _ text h
  · intro exited flag h
    simp [mpvWatcherStep, h]
  · intro e flag h
    simp [exitKeyStep, h]
  · intro flag h
    simp [signalShutdownStep]
  · decide
  · decide

/-- C7 witness: the monotonicity conjuncts applied at concrete inputs — a
scan processed while the flag is already set leaves it set, and so does every
watcher step. -/
theorem c7_shutdown_flag_monotonic_witness :
    (handle_scan [] ⟨"", 0, true⟩ "bambi" 1).1.shuttingDown = true ∧
    mpvWatcherStep false true = true ∧
    exitKeyStep ⟨0, 0, 0⟩ true = true ∧
    signalShutdownStep true = true :=
  ⟨c7_shutdown_flag_monotonic.1 [] ⟨"", 0, true⟩ "bambi" 1 rfl,
    c7_shutdown_flag_monotonic.2.1 false true rfl,
    c7_shutdown_flag_monotonic.2.2.1 ⟨0, 0, 0⟩ true rfl,
    c7_shutdown_flag_monotonic.2.2.2.1 true rfl⟩

/-- C8: one idle-watcher poll regenerates the splash exactly when the splash
is not marked showing or the wall-clock minute differs from the recorded one;
a second idle poll in the same minute does not regenerate it; a not-idle poll
clears the flag and the recorded minute, so the next idle poll always
regenerates. -/
theorem c8_idle_refresh (st : IdleState) (m m2 : Nat) :
    ((idleWatcherStep st true m).2 = true ↔
      (st.splashShowing = false ∨ (m : Int) ≠ st.lastMinute)) ∧
    (idleWatcherStep (idleWatcherStep st true m).1 true m).2 = false ∧
    (idleWatcherStep st false m).1 = ⟨false, -1⟩ ∧
    (idleWatcherStep (idleWatcherStep st false m).1 true m2).2 = true := by
  refine ⟨?_, ?_, ?_, ?_⟩
  · by_cases hc : st.splashShowing = false ∨ (m : Int) ≠ st.lastMinute
    · simp [idleWatcherStep, hc]
    · simp only [idleWatcherStep, if_pos rfl, if_neg hc, hc, iff_false]
      simp
  · by_cases hc : st.splashShowing = false ∨ (m : Int) ≠ st.lastMinute
    · simp [idleWatcherStep, hc]
    · push_neg at hc
      simp [idleWatcherStep, hc.1, hc.2]
  · simp [idleWatcherStep]
  · simp [idleWatcherStep]

/-- C1 counterexample: the debounce step runs before the security check, so a
text containing a path separator that repeats the last accepted scan within
the debounce window is classified Debounced, not Rejected — the claim that
every scanned text containing a separator is classified Rejected fails at
this input (the state shown is reached by scanning the same text once from
the initial state). -/
theorem c1_counterexample :
    hasTraversal "a/b" = true ∧
    (handle_scan [] (handle_scan [] initialRouterState "a/b" 0).1 "a/b" 1).2.1 =
      ScanOutcome.debounced ∧
    ScanOutcome.debounced ≠ ScanOutcome.rejected := by
  have hst : (handle_scan [] initialRouterState "a/b" 0).1 = ⟨"a/b", 0, false⟩ := by decide
  refine ⟨by decide, ?_, by decide⟩
  rw [hst, handle_scan_of_hit [] ⟨"a/b", 0, false⟩ "a/b" 1
    ⟨rfl, by norm_num [SCAN_DEBOUNCE_SECONDS]⟩]

/-- C1 amended: every scan whose text contains `/` or `..` produces no mpv
call and leaves the shutdown flag unchanged, whatever the command prefix or
the media directory contents; and every such scan that passes the debounce
step is classified Rejected (a debounced duplicate is classified Debounced
instead, still with no call). The check uses the raw text, before
uppercasing and prefix matching. -/
theorem c1_traversal_rejected (dir : List DirEntry) (st : RouterState) (text : String)
    (now : ℚ) (htrav : hasTraversal text = true) :
    (handle_scan dir st text now).2.2 = [] ∧
    (handle_scan dir st text now).1.shuttingDown = st.shuttingDown ∧
    (¬(text = st.lastScanText ∧ now - st.lastScanTime < SCAN_DEBOUNCE_SECONDS) →
      (handle_scan dir st text now).2.1 = ScanOutcome.rejected) := by
  by_cases hd : text = st.lastScanText ∧ now - st.lastScanTime < SCAN_DEBOUNCE_SECONDS
  · rw [handle_scan_of_hit dir st text now hd]
    exact ⟨rfl, rfl, fun hacc => absurd hd hacc⟩
  · rw [handle_scan_of_acc dir st text now hd, routeAccepted_rejected dir _ text htrav]
    exact ⟨rfl, rfl, fun _ => rfl⟩

/-- C1 witness: a fresh scan of `CMD:PAUSE/../x` is Rejected with no call and
no shutdown, even though it carries the command prefix. -/
theorem c1_traversal_rejected_witness :
    hasTraversal "CMD:PAUSE/../x" = true ∧
    (¬("CMD:PAUSE/../x" = initialRouterState.lastScanText ∧
        (1 : ℚ) - initialRouterState.lastScanTime < SCAN_DEBOUNCE_SECONDS)) ∧
    (handle_scan [] initialRouterState "CMD:PAUSE/../x" 1).2.2 = [] ∧
    (handle_scan [] initialRouterState "CMD:PAUSE/../x" 1).1.shuttingDown =
      initialRouterState.shuttingDown ∧
    (handle_scan [] initialRouterState "CMD:PAUSE/../x" 1).2.1 = ScanOutcome.rejected := by
  have h := c1_traversal_rejected [] initialRouterState "CMD:PAUSE/../x" 1 (by decide)
  exact ⟨by decide, by decide, h.1, h.2.1, h.2.2 (by decide)⟩

/-- C2 counterexample: with the debounce window of 2 seconds, a repeat of the
last accepted text with elapsed time exactly equal to the window is accepted
by the code (the comparison is strict `<`), while the claim — accepted only
if the text differs or the elapsed time exceeds the window — says it should
be debounced: at this input the text is equal and the elapsed time does not
exceed the window, yet the scan is not debounced. -/
theorem c2_counterexample :
    ("A" = ("A" : String) ∧
      ¬((2 : ℚ) - (0 : ℚ) > SCAN_DEBOUNCE_SECONDS)) ∧
    (handle_scan [] (handle_scan [] initialRouterState "A" 0).1 "A" 2).2.1 ≠
      ScanOutcome.debounced := by
  have hst : (handle_scan [] initialRouterState "A" 0).1 = ⟨"A", 0, false⟩ := by decide
  refine ⟨⟨rfl, by norm_num [SCAN_DEBOUNCE_SECONDS]⟩, ?_⟩
  rw [hst, handle_scan_of_acc [] ⟨"A", 0, false⟩ "A" 2
    (by rintro ⟨-, hlt⟩; norm_num [SCAN_DEBOUNCE_SECONDS] at hlt)]
  exact routeAccepted_ne_debounced [] _ "A"

/-- C2 amended: a scan is accepted (not debounced) exactly when its text
differs from the last accepted text or the elapsed time since the last
acceptance is at least the debounce window (the code compares with strict
`<`, so elapsed time exactly equal to the window is accepted); a debounced
scan changes nothing and issues nothing; an accepted scan stores its text
and timestamp. -/
theorem c2_debounce_iff (dir : List DirEntry) (st : RouterState) (text : String) (now : ℚ) :
    ((handle_scan dir st text now).2.1 ≠ ScanOutcome.debounced ↔
      (text ≠ st.lastScanText ∨ now - st.lastScanTime ≥ SCAN_DEBOUNCE_SECONDS)) ∧
    ((handle_scan dir st text now).2.1 = ScanOutcome.debounced →
      handle_scan dir st text now = (st, ScanOutcome.debounced, [])) ∧
    ((handle_scan dir st text now).2.1 ≠ ScanOutcome.debounced →
      (handle_scan dir st text now).1.lastScanText = text ∧
      (handle_scan dir st text now).1.lastScanTime = now) := by
  have hiff := handle_scan_debounced_iff dir st text now
  refine ⟨⟨?_, ?_⟩, ?_, ?_⟩
  · intro h
    exact (not_and_or.mp (fun hc => h (hiff.mpr hc))).imp id le_of_not_lt
  · intro h hdeb
    rcases hiff.mp hdeb with ⟨heq, hlt⟩
    rcases h with hne | hge
    · exact hne heq
    · exact absurd hlt (not_lt.mpr hge)
  · intro h
    exact handle_scan_of_hit dir st text now (hiff.mp h)
  · intro h
    have hd : ¬(text = st.lastScanText ∧ now - st.lastScanTime < SCAN_DEBOUNCE_SECONDS) :=
      fun hc => h (hiff.mpr hc)
    rw [handle_scan_of_acc dir st text now hd]
    exact ⟨routeAccepted_lastScanText dir _ text, routeAccepted_lastScanTime dir _ text⟩

/-- C2 witness: a repeat of `A` one second after its acceptance is debounced
with no state change; a different text `B` at the same moment is accepted and
stored. -/
theorem c2_debounce_iff_witness :
    (handle_scan [] ⟨"A", 0, false⟩ "A" 1).2.1 = ScanOutcome.debounced ∧
    handle_scan [] ⟨"A", 0, false⟩ "A" 1 = (⟨"A", 0, false⟩, ScanOutcome.debounced, []) ∧
    (handle_scan [] ⟨"A", 0, false⟩ "B" 1).1.lastScanText = "B" := by
  have h1 := c2_debounce_iff [] ⟨"A", 0, false⟩ "A" 1
  have h2 := c2_debounce_iff [] ⟨"A", 0, false⟩ "B" 1
  have hdeb : (handle_scan [] ⟨"A", 0, false⟩ "A" 1).2.1 = ScanOutcome.debounced := by
    by_contra hne
    rcases h1.1.mp hne with hne2 | hge
    · exact hne2 rfl
    · norm_num [SCAN_DEBOUNCE_SECONDS] at hge
  refine ⟨hdeb, h1.2.1 hdeb, (h2.2.2 (h2.1.mpr (Or.inl (by decide)))).1⟩

/-- C3: an accepted, non-rejected scan whose uppercased text starts with
`CMD:` dispatches exactly the mpv calls of the matched command — PAUSE
toggles pause, STOP stops and reloads the splash image, VOLUP and VOLDOWN
add and subtract the configured volume step, MUTE toggles mute, FWD and RWD
seek by plus and minus the fixed seek step, EXIT makes no call and sets the
shutdown flag — and a remainder outside the command set produces no call at
all. -/
theorem c3_command_dispatch (dir : List DirEntry) (st : RouterState) (text : String)
    (now : ℚ)
    (hacc : ¬(text = st.lastScanText ∧ now - st.lastScanTime < SCAN_DEBOUNCE_SECONDS))
    (h1 : hasTraversal text = false)
    (h2 : pyStartsWith (pyUpper text) COMMAND_PREFIX_STR = true) :
    (strippedCommand text = "PAUSE" →
      (handle_scan dir st text now).2.2 = [pauseToggleCmd]) ∧
    (strippedCommand text = "STOP" →
      (handle_scan dir st text now).2.2 = [stopCmd, loadFileCmd SPLASH_IMAGE_STR]) ∧
    (strippedCommand text = "VOLUP" →
      (handle_scan dir st text now).2.2 = [volumeUpCmd VOLUME_STEP]) ∧
    (strippedCommand text = "VOLDOWN" →
      (handle_scan dir st text now).2.2 = [volumeDownCmd VOLUME_STEP]) ∧
    (strippedCommand text = "MUTE" →
      (handle_scan dir st text now).2.2 = [muteToggleCmd]) ∧
    (strippedCommand text = "FWD" →
      (handle_scan dir st text now).2.2 = [seekCmd SEEK_STEP]) ∧
    (strippedCommand text = "RWD" →
      (handle_scan dir st text now).2.2 = [seekCmd (-SEEK_STEP)]) ∧
    (strippedCommand text = "EXIT" →
      (handle_scan dir st text now).2.2 = [] ∧
      (handle_scan dir st text now).1.shuttingDown = true) ∧
    (strippedCommand text ∉ COMMANDS →
      (handle_scan dir st text now).2.2 = [] ∧
      (handle_scan dir st text now).2.1 = ScanOutcome.unknownCommand (strippedCommand text)) := by
  rw [handle_scan_of_acc dir st text now hacc]
  refine ⟨?_, ?_, ?_, ?_, ?_, ?_, ?_, ?_, ?_⟩
  · intro h
    rw [routeAccepted_command dir _ text h1 h2 (by rw [h]; decide), h]
    simp [executeCommand]
  · intro h
    rw [routeAccepted_command dir _ text h1 h2 (by rw [h]; decide), h]
    simp [executeCommand]
  · intro h
    rw [routeAccepted_command dir _ text h1 h2 (by rw [h]; decide), h]
    simp [executeCommand]
  · intro h
    rw [routeAccepted_command dir _ text h1 h2 (by rw [h]; decide), h]
    simp [executeCommand]
  · intro h
    rw [routeAccepted_command dir _ text h1 h2 (by rw [h]; decide), h]
    simp [executeCommand]
  · intro h
    rw [routeAccepted_command dir _ text h1 h2 (by rw [h]; decide), h]
    simp [executeCommand]
  · intro h
    rw [routeAccepted_command dir _ text h1 h2 (by rw [h]; decide), h]
    simp [executeCommand]
  · intro h
    rw [routeAccepted_command dir _ text h1 h2 (by rw [h]; decide), h]
    exact ⟨by simp [executeCommand], by simp [executeCommand]⟩
  · intro h
    rw [routeAccepted_unknown dir _ text h1 h2 h]
    exact ⟨rfl, rfl⟩

/-- C3 witness: `cmd:volup` in lower case dispatches exactly the
volume-increase call with the configured step, and `CMD:FOO` dispatches
nothing. -/
theorem c3_command_dispatch_witness :
    (¬("cmd:volup" = initialRouterState.lastScanText ∧
        (1 : ℚ) - initialRouterState.lastScanTime < SCAN_DEBOUNCE_SECONDS)) ∧
    hasTraversal "cmd:volup" = false ∧
    pyStartsWith (pyUpper "cmd:volup") COMMAND_PREFIX_STR = true ∧
    (handle_scan [] initialRouterState "cmd:volup" 1).2.2 = [volumeUpCmd VOLUME_STEP] ∧
    (handle_scan [] initialRouterState "CMD:FOO" 1).2.2 = [] := by
  refine ⟨by decide, by decide, by decide, ?_, ?_⟩
  · exact (c3_command_dispatch [] initialRouterState "cmd:volup" 1
      (by decide) (by decide) (by decide)).2.2.1 (by decide)
  · exact ((c3_command_dispatch [] initialRouterState "CMD:FOO" 1
      (by decide) (by decide) (by decide)).2.2.2.2.2.2.2.2 (by decide)).1

/-- C4: an accepted, non-rejected scan without the command prefix issues a
load call exactly when the media directory holds a file whose extension is
in the supported set and whose stem equals the text case-insensitively, and
the call carries that file's path; with no matching file, no call is
issued. -/
theorem c4_media_resolution (dir : List DirEntry) (st : RouterState) (text : String)
    (now : ℚ)
    (hacc : ¬(text = st.lastScanText ∧ now - st.lastScanTime < SCAN_DEBOUNCE_SECONDS))
    (h1 : hasTraversal text = false)
    (h2 : pyStartsWith (pyUpper text) COMMAND_PREFIX_STR = false) :
    ((∃ f ∈ dir, matchesStem (pyLower text) f = true) →
      ∃ v, v ∈ dir ∧ matchesStem (pyLower text) v = true ∧
        (handle_scan dir st text now).2.2 = [loadFileCmd (mediaPath v)]) ∧
    ((¬ ∃ f ∈ dir, matchesStem (pyLower text) f = true) →
      (handle_scan dir st text now).2.2 = []) := by
  rw [handle_scan_of_acc dir st text now hacc]
  constructor
  · rintro ⟨f, hf, hp⟩
    cases hv : find_video dir text with
    | none =>
        exfalso
        have hn : dir.find? (matchesStem (pyLower text)) = none := hv
        exact absurd hp (by simpa using List.find?_eq_none.mp hn f hf)
    | some v =>
        have hv2 : dir.find? (matchesStem (pyLower text)) = some v := hv
        exact ⟨v, List.mem_of_find?_eq_some hv2, List.find?_some hv2,
          by rw [routeAccepted_found dir _ text v h1 h2 hv]⟩
  · intro hne
    have hv : find_video dir text = none := by
      have : dir.find? (matchesStem (pyLower text)) = none :=
        List.find?_eq_none.mpr (fun x hx hp => hne ⟨x, hx, hp⟩)
      exact this
    rw [routeAccepted_noVideo dir _ text h1 h2 hv]

/-- C4 witness: the stem `bambi` resolves to the file `Bambi.mp4`
case-insensitively and issues the load call with its path; the stem `dumbo`
matches nothing and issues no call. -/
theorem c4_media_resolution_witness :
    (¬("bambi" = initialRouterState.lastScanText ∧
        (1 : ℚ) - initialRouterState.lastScanTime < SCAN_DEBOUNCE_SECONDS)) ∧
    hasTraversal "bambi" = false ∧
    pyStartsWith (pyUpper "bambi") COMMAND_PREFIX_STR = false ∧
    (∃ v, v ∈ [DirEntry.mk "Bambi.mp4" true] ∧
      matchesStem (pyLower "bambi") v = true ∧
      (handle_scan [DirEntry.mk "Bambi.mp4" true] initialRouterState "bambi" 1).2.2 =
        [loadFileCmd (mediaPath v)]) ∧
    (handle_scan [DirEntry.mk "Bambi.mp4" true] initialRouterState "dumbo" 1).2.2 = [] := by
  refine ⟨by decide, by decide, by decide, ?_, ?_⟩
  · exact (c4_media_resolution [DirEntry.mk "Bambi.mp4" true] initialRouterState "bambi" 1
      (by decide) (by decide) (by decide)).1 ⟨DirEntry.mk "Bambi.mp4" true, by decide, by decide⟩
  · exact (c4_media_resolution [DirEntry.mk "Bambi.mp4" true] initialRouterState "dumbo" 1
      (by decide) (by decide) (by decide)).2 (by decide)

/-- C10: the debounce state is written before the rejection, command and
media checks — every scan that passes the debounce step stores its text and
timestamp whatever its outcome — so an identical rescan within the window is
silently debounced, returning the state unchanged with no call. -/
theorem c10_state_updated_before_checks (dir dir2 : List DirEntry) (st : RouterState)
    (text : String) (now now2 : ℚ)
    (hacc : ¬(text = st.lastScanText ∧ now - st.lastScanTime < SCAN_DEBOUNCE_SECONDS)) :
    (handle_scan dir st text now).1.lastScanText = text ∧
    (handle_scan dir st text now).1.lastScanTime = now ∧
    (now2 - now < SCAN_DEBOUNCE_SECONDS →
      handle_scan dir2 (handle_scan dir st text now).1 text now2 =
        ((handle_scan dir st text now).1, ScanOutcome.debounced, [])) := by
  have h1 : (handle_scan dir st text now).1.lastScanText = text := by
    rw [handle_scan_of_acc dir st text now hacc]
    exact routeAccepted_lastScanText dir _ text
  have h2 : (handle_scan dir st text now).1.lastScanTime = now := by
    rw [handle_scan_of_acc dir st text now hacc]
    exact routeAccepted_lastScanTime dir _ text
  refine ⟨h1, h2, fun hlt => ?_⟩
  exact handle_scan_of_hit dir2 _ text now2 ⟨h1.symm, by rw [h2]; exact hlt⟩

/-- C10 witness: the rejected traversal text `a/b` still updates the debounce
pair, and its identical rescan one second later is debounced. -/
theorem c10_state_updated_before_checks_witness :
    (¬("a/b" = initialRouterState.lastScanText ∧
        (1 : ℚ) - initialRouterState.lastScanTime < SCAN_DEBOUNCE_SECONDS)) ∧
    (2 : ℚ) - 1 < SCAN_DEBOUNCE_SECONDS ∧
    (handle_scan [] initialRouterState "a/b" 1).2.1 = ScanOutcome.rejected ∧
    (handle_scan [] initialRouterState "a/b" 1).1.lastScanText = "a/b" ∧
    handle_scan [] (handle_scan [] initialRouterState "a/b" 1).1 "a/b" 2 =
      ((handle_scan [] initialRouterState "a/b" 1).1, ScanOutcome.debounced, []) := by
  have h := c10_state_updated_before_checks [] [] initialRouterState "a/b" 1 2 (by decide)
  exact ⟨by decide, by norm_num [SCAN_DEBOUNCE_SECONDS], by decide, h.1,
    h.2.2 (by norm_num [SCAN_DEBOUNCE_SECONDS])⟩

/-! Section: lemmas on the keycode decoder -/

theorem push_eq (s : String) (c : Char) : s.push c = s ++ String.singleton c := by
  apply String.ext
  simp [String.data_push, String.data_append, String.singleton]

/-- Running the read loop over an enter-free prefix only grows the buffer by
the mapped characters and updates the shift state; the loop then continues
on the rest of the events. -/
theorem readLoop_no_enter_append (es l2 : List InputEvent) (b : String) (sh : Bool)
    (h : ∀ e ∈ es, ¬ isEnterDown e) :
    readLoop (es ++ l2) b sh =
      readLoop l2 (b ++ mappedLine es sh) (trackShift es sh) := by
  induction es generalizing b sh with
  | nil => simp [mappedLine, trackShift, String.append_empty]
  | cons e rest ih =>
      have he : ¬ isEnterDown e := h e (List.mem_cons_self e rest)
      have hrest : ∀ x ∈ rest, ¬ isEnterDown x := fun x hx => h x (List.mem_cons_of_mem e hx)
      simp only [List.cons_append, readLoop, mappedLine, trackShift]
      by_cases h1 : e.etype = EV_KEY
      · by_cases hs : e.code = KEY_LEFTSHIFT ∨ e.code = KEY_RIGHTSHIFT
        · simp only [if_neg (not_not_intro h1), if_pos hs,
            if_pos (show e.etype = EV_KEY ∧
              (e.code = KEY_LEFTSHIFT ∨ e.code = KEY_RIGHTSHIFT) from ⟨h1, hs⟩)]
          exact ih b (e.value == 1 || e.value == 2) hrest
        · have hnotshift : ¬(e.etype = EV_KEY ∧
              (e.code = KEY_LEFTSHIFT ∨ e.code = KEY_RIGHTSHIFT)) :=
            fun hc => hs hc.2
          simp only [if_neg (not_not_intro h1), if_neg hs, if_neg hnotshift]
          by_cases hv : e.value = 1
          · have hent : ¬ e.code = KEY_ENTER := fun hc => he ⟨h1, hc, hv⟩
            simp only [if_neg (not_not_intro hv), if_neg hent]
            cases hk : KEYMAP e.code with
            | some m =>
                dsimp only
                exact (ih (b.push (if sh then m.2 else m.1)) sh hrest).trans
                  (by rw [push_eq, String.append_assoc])
            | none =>
                dsimp only
                exact ih b sh hrest
          · simp only [if_pos (show e.value ≠ 1 from hv)]
            exact ih b sh hrest
      · simp only [if_pos (show e.etype ≠ EV_KEY from h1),
          if_neg (show ¬(e.etype = EV_KEY ∧
            (e.code = KEY_LEFTSHIFT ∨ e.code = KEY_RIGHTSHIFT)) from fun hc => h1 hc.1)]
        exact ih b sh hrest

/-- One Enter key-down: strip the buffer, emit it when non-empty, reset the
buffer, keep the shift state. -/
theorem readLoop_enter (b : String) (sh : Bool) :
    readLoop [enterDown] b sh =
      ⟨if pyStrip b = "" then [] else [pyStrip b], "", sh⟩ := by
  simp only [readLoop, enterDown, EV_KEY, KEY_ENTER, KEY_LEFTSHIFT, KEY_RIGHTSHIFT]
  norm_num
  by_cases hb : pyStrip b = "" <;> simp [hb]

/-- C6: over any finite event sequence free of Enter key-downs followed by an
Enter key-down, the decoder emits exactly the stripped concatenation of the
characters mapped from the non-shift key-down events — taking the shifted
variant exactly when the tracked shift state was down at that event,
ignoring unmapped keys and non-down events — when that stripped text is
non-empty, emits nothing when it is empty, and resets the buffer either
way. -/
theorem c6_decoded_line (es : List InputEvent) (h : ∀ e ∈ es, ¬ isEnterDown e) :
    (readLoop (es ++ [enterDown]) "" false).outputs =
      (if pyStrip (mappedLine es false) = "" then []
        else [pyStrip (mappedLine es false)]) ∧
    (readLoop (es ++ [enterDown]) "" false).buffer = "" := by
  rw [readLoop_no_enter_append es [enterDown] "" false h, String.empty_append,
    readLoop_enter]
  exact ⟨rfl, rfl⟩

/-- C6 witness: holding shift for `a`, releasing it for `b` and a trailing
space decodes, after the Enter key-down, to the single stripped line `Ab`
with the buffer reset. -/
theorem c6_decoded_line_witness :
    (∀ e ∈ [InputEvent.mk 1 42 1, InputEvent.mk 1 30 1, InputEvent.mk 1 42 0,
        InputEvent.mk 1 48 1, InputEvent.mk 1 57 1], ¬ isEnterDown e) ∧
    (readLoop ([InputEvent.mk 1 42 1, InputEvent.mk 1 30 1, InputEvent.mk 1 42 0,
        InputEvent.mk 1 48 1, InputEvent.mk 1 57 1] ++ [enterDown]) "" false).outputs =
      ["Ab"] ∧
    (readLoop ([InputEvent.mk 1 42 1, InputEvent.mk 1 30 1, InputEvent.mk 1 42 0,
        InputEvent.mk 1 48 1, InputEvent.mk 1 57 1] ++ [enterDown]) "" false).buffer =
      "" := by
  have h := c6_decoded_line [InputEvent.mk 1 42 1, InputEvent.mk 1 30 1,
    InputEvent.mk 1 42 0, InputEvent.mk 1 48 1, InputEvent.mk 1 57 1] (by decide)
  refine ⟨by decide, ?_, h.2⟩
  rw [h.1]
  decide

end KidsPlayer
